import Mathlib

/-!
# Forecast Diagnostics and Metrics Engine — verification

Shallow embedding of the ARIMA forecast diagnostics module
(`ml_backend/visualization/forecast_diagnostics.py`) and proofs of the
frozen claims about it.

Modelling conventions:

- Python floats are idealised as exact rationals (`ℚ`); the only
  irrational-producing operation used by the module, `np.sqrt`, is
  idealised as the exact `Real.sqrt`, so fields holding square roots
  have type `ℝ`.
- A numeric sequence that may contain missing values (`NaN`) is a
  `List (Option ℚ)`; `dropna` keeps the present entries.
- The external statistical routines (`adfuller`, `acorr_ljungbox`,
  `scipy_stats.shapiro`, `acf`, `pacf`, and the pandas `skew`/`kurtosis`
  reductions) are black boxes for this engine: they are modelled as
  parameters gathered in a `StatsEnv`.  A routine that may raise returns
  an `Option`; `none` models the raised exception, which the module
  catches per region.
- A `try/except` block returning `None` on failure is modelled by an
  `Option`-valued function whose failure paths return `none`.
- Dates are wall-clock derived presentation data (synthetic axes ending
  at `pd.Timestamp.now()`); they are represented by the month offsets the
  module adds to "now", never by absolute timestamps.
-/

/-- `Series.dropna()` / boolean `isnan` masking: keep the present values. -/
def dropna (l : List (Option ℚ)) : List ℚ := l.filterMap id

/-- `np.mean` / pandas mean over an already-clean list.  The empty list
gives `0` here (the source produces `NaN` there; no claim depends on it). -/
def meanQ (l : List ℚ) : ℚ := l.sum / (l.length : ℚ)

/-- `np.std` (population variance, `ddof = 0`), before the square root. -/
def popVarQ (l : List ℚ) : ℚ := meanQ (l.map (fun x => (x - meanQ l) ^ 2))

/-- pandas `Series.std()` (sample variance, `ddof = 1`), before the square
root.  For `n ≤ 1` the source produces `NaN`; modelled as `0` (unused by
any claim). -/
def sampleVarQ (l : List ℚ) : ℚ :=
  if l.length ≤ 1 then 0
  else (l.map (fun x => (x - meanQ l) ^ 2)).sum / ((l.length : ℚ) - 1)

/-- Python `round` to the nearest integer, ties to even (bankers rounding). -/
def roundHE {α : Type} [LinearOrderedField α] [FloorRing α] (x : α) : ℤ :=
  let n := ⌊x⌋
  if x - (n : α) < 1 / 2 then n
  else if (1 : α) / 2 < x - (n : α) then n + 1
  else if n % 2 = 0 then n else n + 1

/-- Python `round(x, k)`: bankers rounding to `k` decimal places. -/
def roundPy {α : Type} [LinearOrderedField α] [FloorRing α] (x : α) (k : ℕ) : α :=
  ((roundHE ((10 : α) ^ k * x) : ℤ) : α) / (10 : α) ^ k

/-- The opaque fitted model object (`self.models[district]`), reduced to the
capabilities the module reads: `model.resid`, `model.fittedvalues`,
`model.model.endog`, `model.aic`, `model.bic`, and
`model.get_forecast(steps).{predicted_mean, conf_int(alpha)}`.
`get_forecast steps alpha` returns the predicted means paired with the
(lower, upper) interval rows; `none` models a raised exception anywhere in
the forecast computation. -/
structure FittedModel where
  resid : List (Option ℚ)
  fittedvalues : List (Option ℚ)
  endog : List (Option ℚ)
  aic : ℚ
  bic : ℚ
  get_forecast : ℕ → ℚ → Option (List ℚ × List (ℚ × ℚ))

/-- Per-district training statistics (`self.district_stats[district]`), a
dictionary whose keys may be absent (`dict.get` fallbacks in the source). -/
structure DistrictStat where
  order : Option (ℤ × ℤ × ℤ)
  data_points : Option ℕ
  mean : Option ℚ
  std : Option ℚ

/-- The external statistical routines used by the module, abstracted as
parameters.  `none` models a raised exception. -/
structure StatsEnv where
  /-- `adfuller(x, autolag='AIC')`, projected to the components the module
  reads: statistic, p-value, 1% critical value, 5% critical value. -/
  adfuller : List ℚ → Option (ℚ × ℚ × ℚ × ℚ)
  /-- `acorr_ljungbox(x, lags=[10], return_df=True)['lb_pvalue'].values[0]`. -/
  acorr_ljungbox : List ℚ → Option ℚ
  /-- `scipy_stats.shapiro(x)` as the (statistic, p-value) pair. -/
  shapiro : List ℚ → Option (ℚ × ℚ)
  /-- pandas `Series.skew()` on the raw (NaN-tolerant) residual series. -/
  seriesSkew : List (Option ℚ) → ℚ
  /-- pandas `Series.kurtosis()` on the raw residual series. -/
  seriesKurt : List (Option ℚ) → ℚ
  /-- `acf(x, nlags=m)`. -/
  acf : List ℚ → ℕ → Option (List ℚ)
  /-- `pacf(x, nlags=m)`. -/
  pacf : List ℚ → ℕ → Option (List ℚ)

/-- The loaded model registry: `self.models` and `self.district_stats`.
Python dictionaries preserve insertion order, so both maps are association
lists keyed by the district name. -/
structure ARIMADiagnostics where
  models : List (String × FittedModel)
  district_stats : List (String × DistrictStat)

/-- Ordered dictionary lookup (`d[k]` / `k in d`). -/
def alookup {α : Type} : List (String × α) → String → Option α
  | [], _ => none
  | (k, v) :: rest, d => if d = k then some v else alookup rest d

/-- `get_districts`: the keys of the model registry, in insertion order. -/
def get_districts (st : ARIMADiagnostics) : List String := st.models.map Prod.fst

/-- `self.district_stats.get(district, {})`: missing district gives the
all-absent stats record. -/
def statsOf (st : ARIMADiagnostics) (district : String) : DistrictStat :=
  (alookup st.district_stats district).getD ⟨none, none, none, none⟩

/-- The dictionary returned by `compute_metrics` (lines 204-215). `rmse`
and the fallback branch of `std_enrollment` hold exact square roots, hence
`ℝ`. -/
structure MetricsResult where
  district : String
  rmse : ℝ
  mae : ℚ
  mape : Option ℚ
  aic : ℚ
  bic : ℚ
  ci_coverage_95 : Option ℚ
  data_points : ℕ
  mean_enrollment : ℚ
  std_enrollment : ℝ

instance : Inhabited MetricsResult :=
  ⟨⟨"", 0, 0, none, 0, 0, none, 0, 0, 0⟩⟩

/-- Lines 172-183 of `compute_metrics`: right-align the fitted and actual
sequences to their common trailing length `n = min(len(fitted), len(actual))`
(`fitted_vals[-n:]`, `actual_vals[-n:]`), then drop the positions where
either side is missing (`valid_mask`).  The result pairs each surviving
fitted value with its actual value. -/
def alignedPairs (model : FittedModel) : List (ℚ × ℚ) :=
  let fitted_vals := model.fittedvalues
  let actual_vals := model.endog
  let n := min fitted_vals.length actual_vals.length
  let fittedT := fitted_vals.drop (fitted_vals.length - n)
  let actualT := actual_vals.drop (actual_vals.length - n)
  (fittedT.zip actualT).filterMap (fun p =>
    match p.1, p.2 with
    | some f, some a => some (f, a)
    | _, _ => none)

/-- `compute_metrics(district, forecast_periods=6)` (lines 153-219).
Returns `none` when the district is not in the registry or when no valid
aligned pair remains; otherwise the in-sample accuracy metrics.
`errors = actual_clean - fitted_clean`; MAPE is computed only over the
positions with non-zero actual and is absent when there is no such
position.  `ci_coverage` is never computed (line 202).  The
`forecast_periods` argument is accepted and never used, as in the source. -/
noncomputable def compute_metrics (st : ARIMADiagnostics) (district : String)
    (forecast_periods : ℕ) : Option MetricsResult :=
  match alookup st.models district with
  | none => none
  | some model =>
    let stats_data := statsOf st district
    let pairs := alignedPairs model
    if pairs.length = 0 then none
    else
      let errors := pairs.map (fun p => p.2 - p.1)
      some {
        district := district
        rmse := Real.sqrt (meanQ (errors.map (fun e => e ^ 2)))
        mae := meanQ (errors.map (fun e => |e|))
        mape :=
          if 0 < (pairs.filter (fun p => decide (p.2 ≠ 0))).length then
            some (meanQ ((pairs.filter (fun p => decide (p.2 ≠ 0))).map
              (fun p => |(p.2 - p.1) / p.2|)) * 100)
          else none
        aic := model.aic
        bic := model.bic
        ci_coverage_95 := none
        data_points := stats_data.data_points.getD pairs.length
        mean_enrollment := stats_data.mean.getD (meanQ (pairs.map Prod.snd))
        std_enrollment :=
          match stats_data.std with
          | some s => (s : ℝ)
          | none => Real.sqrt (popVarQ (pairs.map Prod.snd)) }

/-- The dictionary returned by `compute_diagnostics` (lines 130-147).
`residual_std` holds an exact square root, hence `ℝ`. -/
structure DiagnosticResult where
  district : String
  adf_statistic : ℚ
  adf_pvalue : ℚ
  adf_critical_1pct : ℚ
  adf_critical_5pct : ℚ
  is_stationary : Bool
  ljung_box_pvalue : ℚ
  no_autocorrelation : Bool
  shapiro_pvalue : Option ℚ
  residual_mean : ℚ
  residual_std : ℝ
  residual_skewness : ℚ
  residual_kurtosis : ℚ
  model_order : ℤ × ℤ × ℤ
  aic : ℚ
  bic : ℚ

instance : Inhabited DiagnosticResult :=
  ⟨⟨"", 0, 0, 0, 0, false, 0, false, none, 0, 0, 0, 0, (0, 0, 0), 0, 0⟩⟩

/-- `compute_diagnostics(district)` (lines 90-151).  Returns `none` for a
district missing from the registry, and for any raised exception (a failing
ADF, Ljung-Box, or in-range Shapiro-Wilk call).  The Shapiro-Wilk test runs
only when the cleaned residual count `n` satisfies `n ≤ 5000 and n > 3`;
outside that range the pair is `(None, None)`.  The stored field then
follows line 139, `float(shapiro_pvalue) if shapiro_pvalue else None`:
Python truthiness, under which both `None` and an exact zero p-value render
as `None`.  The stationarity and autocorrelation booleans are strict
comparisons of each p-value against 0.05. -/
noncomputable def compute_diagnostics (env : StatsEnv) (st : ARIMADiagnostics)
    (district : String) : Option DiagnosticResult :=
  match alookup st.models district with
  | none => none
  | some model =>
    let district_stat := statsOf st district
    let residuals := model.resid
    match env.adfuller (dropna residuals) with
    | none => none
    | some adf_result =>
      match env.acorr_ljungbox (dropna residuals) with
      | none => none
      | some lb_pvalue =>
        let resid_clean := dropna residuals
        let shapiroStep : Option (Option ℚ) :=
          if resid_clean.length ≤ 5000 ∧ 3 < resid_clean.length then
            (env.shapiro resid_clean).map (fun p => some p.2)
          else some none
        match shapiroStep with
        | none => none
        | some shapiro_pvalue0 =>
          some {
            district := district
            adf_statistic := adf_result.1
            adf_pvalue := adf_result.2.1
            adf_critical_1pct := adf_result.2.2.1
            adf_critical_5pct := adf_result.2.2.2
            is_stationary := decide (adf_result.2.1 < 1 / 20)
            ljung_box_pvalue := lb_pvalue
            no_autocorrelation := decide ((1 : ℚ) / 20 < lb_pvalue)
            shapiro_pvalue :=
              match shapiro_pvalue0 with
              | some p => if p ≠ 0 then some p else none
              | none => none
            residual_mean := meanQ resid_clean
            residual_std := Real.sqrt (sampleVarQ resid_clean)
            residual_skewness := env.seriesSkew residuals
            residual_kurtosis := env.seriesKurt residuals
            model_order := district_stat.order.getD (1, 1, 1)
            aic := model.aic
            bic := model.bic }

/-- One row of the cross-district summary table (lines 428-440).  Numeric
display fields are rounded; `MAPE` and `CI_Coverage` follow the Python
truthiness pattern `round(x, 1) if x else None` of lines 432 and 437, under
which a value of exactly `0` renders as absent. -/
structure SummaryRow where
  District : String
  RMSE : ℝ
  MAE : ℚ
  MAPE : Option ℚ
  AIC : ℚ
  BIC : ℚ
  ADF_pvalue : ℚ
  LjungBox_pvalue : ℚ
  CI_Coverage : Option ℚ
  Data_Points : ℕ
  Order : ℤ × ℤ × ℤ

/-- The row dictionary appended for one district (lines 428-440). -/
noncomputable def buildRow (district : String) (diagnostics : DiagnosticResult)
    (metrics : MetricsResult) : SummaryRow where
  District := district
  RMSE := roundPy metrics.rmse 1
  MAE := roundPy metrics.mae 1
  MAPE :=
    match metrics.mape with
    | some v => if v ≠ 0 then some (roundPy v 1) else none
    | none => none
  AIC := roundPy metrics.aic 1
  BIC := roundPy metrics.bic 1
  ADF_pvalue := roundPy diagnostics.adf_pvalue 4
  LjungBox_pvalue := roundPy diagnostics.ljung_box_pvalue 4
  CI_Coverage :=
    match metrics.ci_coverage_95 with
    | some v => if v ≠ 0 then some (roundPy v 1) else none
    | none => none
  Data_Points := metrics.data_points
  Order := diagnostics.model_order

/-- The body of the summary loop for one district (lines 423-440): the row
appended when both `compute_diagnostics` and `compute_metrics` return a
(truthy, i.e. non-`None`) result, nothing otherwise.  `compute_metrics` is
called with its default `forecast_periods = 6`. -/
noncomputable def rowFor (env : StatsEnv) (st : ARIMADiagnostics)
    (district : String) : Option SummaryRow :=
  match compute_diagnostics env st district, compute_metrics st district 6 with
  | some diagnostics, some metrics => some (buildRow district diagnostics metrics)
  | _, _ => none

/-- The pre-sort summary rows (lines 421-441): one row per traversed
district for which both computations succeed. -/
noncomputable def summaryRows (env : StatsEnv) (st : ARIMADiagnostics) :
    List SummaryRow :=
  (get_districts st).filterMap (rowFor env st)

/-- `generate_summary_table` (lines 414-445): build the rows, then
`df.sort_values("RMSE")` when non-empty.  `sort_values` uses the pandas
default `kind='quicksort'`, whose relative order of rows with equal keys is
implementation-defined (only `mergesort`/`stable` are documented stable);
it is modelled here by an executable comparison sort realising the
documented contract — ascending `RMSE` over a permutation of the rows.
Every theorem below that touches this table depends only on the
permutation property, which any correct realisation of `sort_values`
satisfies; the tie order itself is deliberately not relied upon. -/
noncomputable def generate_summary_table (env : StatsEnv)
    (st : ARIMADiagnostics) : List SummaryRow :=
  let rows := summaryRows env st
  if rows.isEmpty then rows
  else List.insertionSort (fun a b => a.RMSE ≤ b.RMSE) rows

/-- One row of `forecasts.csv` (lines 468-475).  The exported `date` column
is `pd.Timestamp.now() + DateOffset(months=months_ahead)` formatted; only
the wall-clock-independent month offset is modelled. -/
structure ForecastCsvRow where
  district : String
  months_ahead : ℕ
  period : ℕ
  forecast : ℚ
  lower_ci_95 : ℚ
  upper_ci_95 : ℚ

/-- The row built at loop index `i` (0-based) of the export loop. -/
def forecastRowAt (district : String) (predictions : List ℚ)
    (conf_int : List (ℚ × ℚ)) (i : ℕ) : ForecastCsvRow where
  district := district
  months_ahead := i + 1
  period := i + 1
  forecast := roundPy (predictions.getD i 0) 0
  lower_ci_95 := roundPy ((conf_int.getD i (0, 0)).1) 0
  upper_ci_95 := roundPy ((conf_int.getD i (0, 0)).2) 0

/-- The `for i in range(forecast_periods)` loop of lines 466-475, still
inside the per-district `try`.  Indexing `predictions.iloc[i]` or
`conf_int.iloc[i]` past the end raises, which aborts the loop but keeps the
rows already appended; `fuel` counts the remaining iterations and `i` is
the current index. -/
def forecastLoopRows (district : String) (predictions : List ℚ)
    (conf_int : List (ℚ × ℚ)) : ℕ → ℕ → List ForecastCsvRow
  | 0, _ => []
  | fuel + 1, i =>
    match predictions[i]?, conf_int[i]? with
    | some _, some _ =>
      forecastRowAt district predictions conf_int i ::
        forecastLoopRows district predictions conf_int fuel (i + 1)
    | _, _ => []

/-- The rows one district contributes to the forecast export (the
per-district `try` body, lines 459-477): nothing when `get_forecast` (or
the `conf_int(alpha=0.05)` call bundled with it) raises, otherwise the
loop rows. -/
def regionForecastRows (st : ARIMADiagnostics) (forecast_periods : ℕ)
    (district : String) : List ForecastCsvRow :=
  match alookup st.models district with
  | none => []
  | some model =>
    match model.get_forecast forecast_periods (1 / 20) with
    | none => []
    | some pc => forecastLoopRows district pc.1 pc.2 forecast_periods 0

/-- Whether a district's forecast generation succeeds (its `try` body
raises nowhere before the loop). -/
def forecastOk (st : ARIMADiagnostics) (forecast_periods : ℕ)
    (district : String) : Bool :=
  match alookup st.models district with
  | some model => (model.get_forecast forecast_periods (1 / 20)).isSome
  | none => false

/-- `export_forecasts_csv(forecast_periods=24)` (lines 447-484), as the
list of exported rows.  Each district is attempted in turn; a raised
exception is caught and the district contributes no further rows, never
aborting the loop over the remaining districts. -/
def export_forecasts_csv (st : ARIMADiagnostics) (forecast_periods : ℕ) :
    List ForecastCsvRow :=
  (get_districts st).flatMap (regionForecastRows st forecast_periods)

/-- The data payload of the interactive forecast plot (lines 263-305):
historical actuals, optionally the fitted overlay, and the forecast with
its interval band.  Styling and the synthetic monthly date axis are
presentation only and not modelled. -/
structure ForecastFigure where
  actual : List (Option ℚ)
  fitted : Option (List (Option ℚ))
  predictions : List ℚ
  lower : List ℚ
  upper : List ℚ

/-- `generate_forecast_plot(district, forecast_periods=24,
confidence_level=0.95, show_fitted=True)` (lines 221-331).  Absent for a
missing district; a raised forecast (`get_forecast` with
`alpha = 1 - confidence_level`) or the `hist_dates[-1]` indexing of an
empty historical axis is caught and yields absent. -/
def generate_forecast_plot (st : ARIMADiagnostics) (district : String)
    (forecast_periods : ℕ) (confidence_level : ℚ) (show_fitted : Bool) :
    Option ForecastFigure :=
  match alookup st.models district with
  | none => none
  | some model =>
    let actual := model.endog
    let fitted := model.fittedvalues
    match model.get_forecast forecast_periods (1 - confidence_level) with
    | none => none
    | some pc =>
      if actual.length = 0 then none
      else some {
        actual := actual
        fitted := if show_fitted then some fitted else none
        predictions := pc.1
        lower := pc.2.map Prod.fst
        upper := pc.2.map Prod.snd }

/-- The data payload of the residual diagnostics figure (lines 348-408):
residual trace, 30-bin histogram input, and the ACF/PACF bars with their
`±1.96/√n` band. -/
structure ResidualFigure where
  residuals : List ℚ
  nbins : ℕ
  acf_values : List ℚ
  pacf_values : List ℚ
  conf_bound : ℝ

/-- `generate_residual_plots(district)` (lines 333-412).  Absent for a
missing district; a raised `acf` or `pacf` call is caught and yields
absent.  `max_lags = min(20, len//2 - 1)` floored to 2 (computed with
Python integer semantics, where `len//2 - 1` may be negative). -/
noncomputable def generate_residual_plots (env : StatsEnv)
    (st : ARIMADiagnostics) (district : String) : Option ResidualFigure :=
  match alookup st.models district with
  | none => none
  | some model =>
    let residuals := dropna model.resid
    let m0 : ℤ := min 20 ((residuals.length : ℤ) / 2 - 1)
    let max_lags : ℤ := if m0 < 2 then 2 else m0
    match env.acf residuals max_lags.toNat with
    | none => none
    | some acf_values =>
      match env.pacf residuals max_lags.toNat with
      | none => none
      | some pacf_values =>
        some {
          residuals := residuals
          nbins := 30
          acf_values := acf_values
          pacf_values := pacf_values
          conf_bound := (196 : ℝ) / 100 / Real.sqrt (residuals.length : ℝ) }

/-! ## Concrete fixtures for witnesses and counterexamples -/

/-- A model with one imperfectly fitted point; metrics succeed on it. -/
def mWitness : FittedModel where
  resid := [some 1, some (-1)]
  fittedvalues := [some 1]
  endog := [some 2]
  aic := 10
  bic := 11
  get_forecast := fun _ _ => none

/-- Registry holding only `mWitness` under the key `"A"`. -/
def stWitness : ARIMADiagnostics where
  models := [("A", mWitness)]
  district_stats := []

/-- The metrics record computed for `stWitness`. -/
noncomputable def rWitness : MetricsResult :=
  (compute_metrics stWitness "A" 6).getD default

/-- An environment in which every statistical routine succeeds. -/
def envWitness : StatsEnv where
  adfuller := fun _ => some (-(3 : ℚ), 1 / 100, -(7 / 2 : ℚ), -(29 / 10 : ℚ))
  acorr_ljungbox := fun _ => some (1 / 2)
  shapiro := fun _ => some (97 / 100, 1 / 2)
  seriesSkew := fun _ => 0
  seriesKurt := fun _ => 0
  acf := fun _ _ => some []
  pacf := fun _ _ => some []

/-- The diagnostics record computed for `stWitness` under `envWitness`. -/
noncomputable def rDiagWitness : DiagnosticResult :=
  (compute_diagnostics envWitness stWitness "A").getD default

/-- A model with five clean residuals, so the Shapiro-Wilk sample size is
in the valid range `3 < n ≤ 5000`. -/
def mC2 : FittedModel where
  resid := [some 1, some 2, some 3, some 4, some 5]
  fittedvalues := []
  endog := []
  aic := 0
  bic := 0
  get_forecast := fun _ _ => none

/-- An environment whose Shapiro-Wilk call succeeds with a p-value that
underflowed to exactly `0.0`. -/
def envC2 : StatsEnv where
  adfuller := fun _ => some (-(3 : ℚ), 1 / 100, -(7 / 2 : ℚ), -(29 / 10 : ℚ))
  acorr_ljungbox := fun _ => some (1 / 2)
  shapiro := fun _ => some (9 / 10, 0)
  seriesSkew := fun _ => 0
  seriesKurt := fun _ => 0
  acf := fun _ _ => none
  pacf := fun _ _ => none

/-- Registry holding only `mC2` under the key `"A"`. -/
def stC2 : ARIMADiagnostics where
  models := [("A", mC2)]
  district_stats := []

/-- The diagnostics record computed for `stC2` under `envC2`. -/
noncomputable def rC2 : DiagnosticResult :=
  (compute_diagnostics envC2 stC2 "A").getD default

/-- A registry with one district where both computations succeed (`"A"`)
and one district whose metrics computation fails for lack of aligned data
(`"B"`, backed by `mC2` with empty fitted and actual sequences). -/
def stC4 : ARIMADiagnostics where
  models := [("A", mWitness), ("B", mC2)]
  district_stats := []

/-- A model fitting one point exactly, so its MAPE is exactly zero. -/
def mZero : FittedModel where
  resid := [some 0]
  fittedvalues := [some 2]
  endog := [some 2]
  aic := 1
  bic := 2
  get_forecast := fun _ _ => none

/-- Registry holding only `mZero` under the key `"Z"`. -/
def stC10 : ARIMADiagnostics where
  models := [("Z", mZero)]
  district_stats := []

/-- The metrics record computed for `stC10`; its MAPE is `some 0`. -/
noncomputable def rZero : MetricsResult :=
  (compute_metrics stC10 "Z" 6).getD default

/-- A model whose one-step forecast succeeds with one prediction row. -/
def mForecast : FittedModel where
  resid := []
  fittedvalues := []
  endog := [some 1]
  aic := 0
  bic := 0
  get_forecast := fun steps _ => if steps = 1 then some ([5], [(4, 6)]) else none

/-- A registry with one district whose forecast succeeds (`"F"`) and one
whose forecast raises (`"G"`, backed by `mC2`). -/
def stC8 : ARIMADiagnostics where
  models := [("F", mForecast), ("G", mC2)]
  district_stats := []

/-! ## Theorems -/

/-- The mean of a list of non-negative rationals is non-negative. -/
lemma meanQ_nonneg {l : List ℚ} (h : ∀ x ∈ l, 0 ≤ x) : 0 ≤ meanQ l :=
  div_nonneg (List.sum_nonneg h) (Nat.cast_nonneg _)

/-- Field extraction for a successful `compute_metrics` call. -/
lemma compute_metrics_fields (st : ARIMADiagnostics) (district : String)
    (forecast_periods : ℕ) (model : FittedModel) (r : MetricsResult)
    (hm : alookup st.models district = some model)
    (h : compute_metrics st district forecast_periods = some r) :
    r.rmse = Real.sqrt (meanQ ((alignedPairs model).map (fun p => (p.2 - p.1) ^ 2))) ∧
    r.mae = meanQ ((alignedPairs model).map (fun p => |p.2 - p.1|)) ∧
    r.mape = (if 0 < ((alignedPairs model).filter (fun p => decide (p.2 ≠ 0))).length then
        some (meanQ (((alignedPairs model).filter (fun p => decide (p.2 ≠ 0))).map
          (fun p => |(p.2 - p.1) / p.2|)) * 100)
      else none) := by
  unfold compute_metrics at h
  rw [hm] at h
  simp only at h
  split at h
  · exact absurd h (by simp)
  · rw [Option.some.injEq] at h
    refine ⟨?_, ?_, ?_⟩ <;> rw [← h] <;> simp only [List.map_map] <;> rfl

/-- `compute_metrics` fails exactly on a missing district or empty aligned
pair list. -/
lemma compute_metrics_none_iff (st : ARIMADiagnostics) (district : String)
    (forecast_periods : ℕ) (model : FittedModel)
    (hm : alookup st.models district = some model) :
    compute_metrics st district forecast_periods = none ↔ alignedPairs model = [] := by
  unfold compute_metrics
  rw [hm]
  by_cases hp : (alignedPairs model).length = 0
  · simp [hp, List.length_eq_zero.mp hp]
  · simp only [hp, if_neg, List.length_eq_zero]
    simp [hp]
    intro he
    exact hp (by rw [he]; rfl)

/-- C7: for every region whose computeMetrics call succeeds, the
confidence-interval-coverage field of the returned MetricsResult is absent,
regardless of the model or the `forecast_periods` argument. -/
theorem c7_ci_coverage_always_absent (st : ARIMADiagnostics) (district : String)
    (forecast_periods : ℕ) (r : MetricsResult)
    (h : compute_metrics st district forecast_periods = some r) :
    r.ci_coverage_95 = none := by
  unfold compute_metrics at h
  rcases hal : alookup st.models district with _ | model
  · rw [hal] at h
    exact absurd h (by simp)
  · rw [hal] at h
    simp only at h
    split at h
    · exact absurd h (by simp)
    · rw [Option.some.injEq] at h
      rw [← h]

/-- Witness for C7 at a concrete registry. -/
theorem c7_ci_coverage_always_absent_witness : rWitness.ci_coverage_95 = none :=
  c7_ci_coverage_always_absent stWitness "A" 6 rWitness rfl

/-- C5: for a region with a FittedModel, computeMetrics returns absent
exactly when zero valid aligned pairs remain after right-aligned truncation
to the common trailing length and dropping of missing positions; on
success RMSE and MAE are non-negative, RMSE is the root mean squared error
and MAE the mean absolute error over the aligned pairs. -/
theorem c5_metrics_shape (st : ARIMADiagnostics) (district : String)
    (forecast_periods : ℕ) (model : FittedModel)
    (hm : alookup st.models district = some model) :
    (compute_metrics st district forecast_periods = none ↔ alignedPairs model = []) ∧
    (∀ r, compute_metrics st district forecast_periods = some r →
      0 ≤ r.rmse ∧ 0 ≤ r.mae ∧
      r.rmse = Real.sqrt (meanQ ((alignedPairs model).map (fun p => (p.2 - p.1) ^ 2))) ∧
      r.mae = meanQ ((alignedPairs model).map (fun p => |p.2 - p.1|))) := by
  refine ⟨compute_metrics_none_iff st district forecast_periods model hm, ?_⟩
  intro r h
  obtain ⟨hrmse, hmae, -⟩ :=
    compute_metrics_fields st district forecast_periods model r hm h
  refine ⟨?_, ?_, hrmse, hmae⟩
  · rw [hrmse]
    exact Real.sqrt_nonneg _
  · rw [hmae]
    refine meanQ_nonneg ?_
    intro x hx
    rw [List.mem_map] at hx
    rcases hx with ⟨p, _, hp⟩
    rw [← hp]
    exact abs_nonneg _

/-- Witness for C5: the concrete registry `stWitness`. -/
theorem c5_metrics_shape_witness :
    (compute_metrics stWitness "A" 6 = none ↔ alignedPairs mWitness = []) ∧
    (∀ r, compute_metrics stWitness "A" 6 = some r →
      0 ≤ r.rmse ∧ 0 ≤ r.mae ∧
      r.rmse = Real.sqrt (meanQ ((alignedPairs mWitness).map (fun p => (p.2 - p.1) ^ 2))) ∧
      r.mae = meanQ ((alignedPairs mWitness).map (fun p => |p.2 - p.1|))) :=
  c5_metrics_shape stWitness "A" 6 mWitness rfl

/-- C1: on success, MAPE is absent exactly when every aligned actual value
is zero; when some aligned actual is non-zero, MAPE is the mean of
`|errors/actual|` over the positions with non-zero actual, times 100 (a
well-defined rational, never NaN). -/
theorem c1_mape_presence (st : ARIMADiagnostics) (district : String)
    (forecast_periods : ℕ) (model : FittedModel) (r : MetricsResult)
    (hm : alookup st.models district = some model)
    (h : compute_metrics st district forecast_periods = some r) :
    (r.mape = none ↔ ∀ p ∈ alignedPairs model, p.2 = 0) ∧
    ((∃ p ∈ alignedPairs model, p.2 ≠ 0) →
      r.mape = some (meanQ (((alignedPairs model).filter (fun p => decide (p.2 ≠ 0))).map
        (fun p => |(p.2 - p.1) / p.2|)) * 100)) := by
  obtain ⟨-, -, hmape⟩ :=
    compute_metrics_fields st district forecast_periods model r hm h
  rw [hmape]
  constructor
  · by_cases hz : 0 < ((alignedPairs model).filter (fun p => decide (p.2 ≠ 0))).length
    · rw [if_pos hz]
      simp only [Option.some_ne_none, false_iff]
      rw [List.length_pos] at hz
      intro hall
      rcases List.exists_mem_of_ne_nil _ hz with ⟨p, hp⟩
      rw [List.mem_filter] at hp
      exact absurd (hall p hp.1) (by simpa using hp.2)
    · rw [if_neg hz]
      simp only [true_iff]
      intro p hp
      by_contra hne
      refine hz (List.length_pos.mpr ?_)
      intro hnil
      rw [List.filter_eq_nil_iff] at hnil
      exact hnil p hp (by simpa using hne)
  · intro ⟨p, hp, hpne⟩
    have hz : 0 < ((alignedPairs model).filter (fun p => decide (p.2 ≠ 0))).length := by
      refine List.length_pos.mpr ?_
      intro hnil
      rw [List.filter_eq_nil_iff] at hnil
      exact hnil p hp (by simpa using hpne)
    rw [if_pos hz]

/-- Witness for C1: `stWitness`, whose single aligned actual is `2 ≠ 0`. -/
theorem c1_mape_presence_witness :
    (rWitness.mape = none ↔ ∀ p ∈ alignedPairs mWitness, p.2 = 0) ∧
    ((∃ p ∈ alignedPairs mWitness, p.2 ≠ 0) →
      rWitness.mape = some (meanQ (((alignedPairs mWitness).filter (fun p => decide (p.2 ≠ 0))).map
        (fun p => |(p.2 - p.1) / p.2|)) * 100)) :=
  c1_mape_presence stWitness "A" 6 mWitness rWitness rfl rfl

/-- A successful `compute_diagnostics` derives each significance boolean
from its own test's p-value field by a strict comparison against 0.05. -/
lemma compute_diagnostics_threshold_fields (env : StatsEnv)
    (st : ARIMADiagnostics) (district : String) (r : DiagnosticResult)
    (h : compute_diagnostics env st district = some r) :
    r.is_stationary = decide (r.adf_pvalue < 1 / 20) ∧
    r.no_autocorrelation = decide (1 / 20 < r.ljung_box_pvalue) := by
  unfold compute_diagnostics at h
  split at h
  · exact absurd h (by simp)
  · simp only at h
    split at h
    · exact absurd h (by simp)
    · split at h
      · exact absurd h (by simp)
      · split at h
        · exact absurd h (by simp)
        · rw [Option.some.injEq] at h
          refine ⟨?_, ?_⟩ <;> rw [← h]

/-- C6: in every successful DiagnosticResult, `is_stationary` holds exactly
when the ADF p-value is strictly below 0.05 and `no_autocorrelation` holds
exactly when the Ljung-Box p-value is strictly above 0.05; a p-value of
exactly 0.05 makes both booleans false, and each boolean is compared
against its own test's p-value field. -/
theorem c6_significance_booleans (env : StatsEnv) (st : ARIMADiagnostics)
    (district : String) (r : DiagnosticResult)
    (h : compute_diagnostics env st district = some r) :
    (r.is_stationary = true ↔ r.adf_pvalue < 1 / 20) ∧
    (r.no_autocorrelation = true ↔ 1 / 20 < r.ljung_box_pvalue) ∧
    (r.adf_pvalue = 1 / 20 → r.is_stationary = false) ∧
    (r.ljung_box_pvalue = 1 / 20 → r.no_autocorrelation = false) := by
  obtain ⟨h1, h2⟩ := compute_diagnostics_threshold_fields env st district r h
  refine ⟨?_, ?_, ?_, ?_⟩
  · rw [h1]
    exact decide_eq_true_iff
  · rw [h2]
    exact decide_eq_true_iff
  · intro he
    rw [h1, he]
    simp
  · intro he
    rw [h2, he]
    simp

/-- Witness for C6 at a concrete registry and environment. -/
theorem c6_significance_booleans_witness :
    (rDiagWitness.is_stationary = true ↔ rDiagWitness.adf_pvalue < 1 / 20) ∧
    (rDiagWitness.no_autocorrelation = true ↔ 1 / 20 < rDiagWitness.ljung_box_pvalue) ∧
    (rDiagWitness.adf_pvalue = 1 / 20 → rDiagWitness.is_stationary = false) ∧
    (rDiagWitness.ljung_box_pvalue = 1 / 20 → rDiagWitness.no_autocorrelation = false) :=
  c6_significance_booleans envWitness stWitness "A" rDiagWitness rfl

/-- C2, counterexample: the claim states that within the range
`3 < n ≤ 5000` the Shapiro-Wilk p-value field is always present.  In the
concrete registry `stC2` (five clean residuals, so `n = 5` is in range) the
diagnostics call succeeds and the environment's Shapiro-Wilk p-value is
exactly `0.0`, yet line 139's truthiness check (`if shapiro_pvalue`)
renders the field absent — refuting the claimed equivalence. -/
theorem c2_shapiro_zero_pvalue_counterexample :
    3 < (dropna mC2.resid).length ∧ (dropna mC2.resid).length ≤ 5000 ∧
    (compute_diagnostics envC2 stC2 "A").map DiagnosticResult.shapiro_pvalue =
      some none :=
  ⟨by decide, by decide, rfl⟩

/-- C2 as amended: on success, the Shapiro-Wilk p-value field is present
exactly when the cleaned residual count `n` satisfies `3 < n ≤ 5000` AND
the p-value returned by the test is non-zero (line 139 tests Python
truthiness, not presence). -/
theorem c2_shapiro_presence_amended (env : StatsEnv) (st : ARIMADiagnostics)
    (district : String) (model : FittedModel) (r : DiagnosticResult)
    (hm : alookup st.models district = some model)
    (h : compute_diagnostics env st district = some r) :
    (r.shapiro_pvalue ≠ none ↔
      3 < (dropna model.resid).length ∧ (dropna model.resid).length ≤ 5000 ∧
      ∃ s p, env.shapiro (dropna model.resid) = some (s, p) ∧ p ≠ 0) := by
  unfold compute_diagnostics at h
  rw [hm] at h
  simp only at h
  split at h
  · exact absurd h (by simp)
  · split at h
    · exact absurd h (by simp)
    · split at h
      · exact absurd h (by simp)
      · rename_i sh0 heq
        rw [Option.some.injEq] at h
        by_cases hin : (dropna model.resid).length ≤ 5000 ∧ 3 < (dropna model.resid).length
        · rw [if_pos hin] at heq
          rcases hsh : env.shapiro (dropna model.resid) with _ | pr
          · rw [hsh] at heq
            exact absurd heq (by simp)
          · obtain ⟨s0, p0⟩ := pr
            rw [hsh] at heq
            have heq2 : some (some p0) = some sh0 := heq
            rw [Option.some.injEq] at heq2
            subst heq2
            have hfield : r.shapiro_pvalue = (if p0 ≠ 0 then some p0 else none) :=
              congrArg DiagnosticResult.shapiro_pvalue h.symm
            rw [hfield]
            by_cases hp0 : p0 = 0
            · rw [if_neg (by simp [hp0])]
              constructor
              · intro hne
                exact absurd rfl hne
              · rintro ⟨-, -, s, p, hsp, hpne⟩
                rw [Option.some.injEq, Prod.mk.injEq] at hsp
                exact absurd (hsp.2 ▸ hp0) hpne
            · rw [if_pos hp0]
              constructor
              · intro _
                exact ⟨hin.2, hin.1, s0, p0, rfl, hp0⟩
              · intro _
                simp
        · rw [if_neg hin] at heq
          rw [Option.some.injEq] at heq
          subst heq
          have hfield : r.shapiro_pvalue = none :=
            congrArg DiagnosticResult.shapiro_pvalue h.symm
          rw [hfield]
          constructor
          · intro hne
            exact absurd rfl hne
          · rintro ⟨h3, h5000, -⟩
            exact absurd ⟨h5000, h3⟩ hin

/-- Witness for the amended C2 at the concrete zero-p-value input. -/
theorem c2_shapiro_presence_amended_witness :
    (rC2.shapiro_pvalue ≠ none ↔
      3 < (dropna mC2.resid).length ∧ (dropna mC2.resid).length ≤ 5000 ∧
      ∃ s p, envC2.shapiro (dropna mC2.resid) = some (s, p) ∧ p ≠ 0) :=
  c2_shapiro_presence_amended envC2 stC2 "A" mC2 rC2 rfl rfl

/-- A key absent from an association list looks up to `none`. -/
lemma alookup_eq_none {α : Type} {l : List (String × α)} {d : String}
    (h : d ∉ l.map Prod.fst) : alookup l d = none := by
  induction l with
  | nil => rfl
  | cons kv rest ih =>
    obtain ⟨k, v⟩ := kv
    simp only [List.map_cons, List.mem_cons, not_or] at h
    show (if d = k then some v else alookup rest d) = none
    rw [if_neg h.1]
    exact ih h.2

/-- A district outside the registry keys fails the diagnostics guard. -/
lemma compute_diagnostics_not_mem (env : StatsEnv) (st : ARIMADiagnostics)
    (district : String) (h : district ∉ get_districts st) :
    compute_diagnostics env st district = none := by
  unfold compute_diagnostics
  rw [alookup_eq_none h]

/-- A district outside the registry keys fails the metrics guard. -/
lemma compute_metrics_not_mem (st : ARIMADiagnostics) (district : String)
    (forecast_periods : ℕ) (h : district ∉ get_districts st) :
    compute_metrics st district forecast_periods = none := by
  unfold compute_metrics
  rw [alookup_eq_none h]

/-- C9: a region identifier not present in the loaded model registry makes
computeDiagnostics, computeMetrics, the forecast-plot generator and the
residual-plot generator all return absent immediately (each function's
first statement is the membership guard; no model state exists to read). -/
theorem c9_unknown_region_all_absent (env : StatsEnv) (st : ARIMADiagnostics)
    (district : String) (metrics_periods forecast_periods : ℕ)
    (confidence_level : ℚ) (show_fitted : Bool)
    (h : district ∉ get_districts st) :
    compute_diagnostics env st district = none ∧
    compute_metrics st district metrics_periods = none ∧
    generate_forecast_plot st district forecast_periods confidence_level show_fitted = none ∧
    generate_residual_plots env st district = none := by
  refine ⟨compute_diagnostics_not_mem env st district h,
    compute_metrics_not_mem st district metrics_periods h, ?_, ?_⟩
  · unfold generate_forecast_plot
    rw [alookup_eq_none h]
  · unfold generate_residual_plots
    rw [alookup_eq_none h]

/-- Witness for C9: the key `"B"` is not in `stWitness`. -/
theorem c9_unknown_region_all_absent_witness :
    compute_diagnostics envWitness stWitness "B" = none ∧
    compute_metrics stWitness "B" 6 = none ∧
    generate_forecast_plot stWitness "B" 24 (19 / 20) true = none ∧
    generate_residual_plots envWitness stWitness "B" = none :=
  c9_unknown_region_all_absent envWitness stWitness "B" 6 24 (19 / 20) true
    (by decide)

/-- The row built for a district carries that district's name. -/
lemma rowFor_district {env : StatsEnv} {st : ARIMADiagnostics}
    {district : String} {row : SummaryRow}
    (h : rowFor env st district = some row) : row.District = district := by
  unfold rowFor at h
  split at h
  · rw [Option.some.injEq] at h
    rw [← h]
    rfl
  · exact absurd h (by simp)

/-- A district has a summary row exactly when both computations succeed. -/
lemma rowFor_isSome (env : StatsEnv) (st : ARIMADiagnostics)
    (district : String) :
    (rowFor env st district).isSome =
      ((compute_diagnostics env st district).isSome &&
        (compute_metrics st district 6).isSome) := by
  unfold rowFor
  rcases compute_diagnostics env st district with _ | dg <;>
    rcases compute_metrics st district 6 with _ | m <;> rfl

/-- Membership in the pre-sort rows, unfolded to the two computations. -/
lemma mem_summaryRows {env : StatsEnv} {st : ARIMADiagnostics}
    {row : SummaryRow} :
    row ∈ summaryRows env st ↔
      ∃ district ∈ get_districts st, ∃ dg m,
        compute_diagnostics env st district = some dg ∧
        compute_metrics st district 6 = some m ∧
        row = buildRow district dg m := by
  unfold summaryRows
  rw [List.mem_filterMap]
  constructor
  · rintro ⟨d, hd, hf⟩
    unfold rowFor at hf
    rcases hdg : compute_diagnostics env st d with _ | dg <;> rw [hdg] at hf
    · exact absurd hf (by simp)
    · rcases hmm : compute_metrics st d 6 with _ | m <;> rw [hmm] at hf
      · exact absurd hf (by simp)
      · rw [Option.some.injEq] at hf
        exact ⟨d, hd, dg, m, hdg, hmm, hf.symm⟩
  · rintro ⟨d, hd, dg, m, hdg, hmm, hrow⟩
    refine ⟨d, hd, ?_⟩
    unfold rowFor
    rw [hdg, hmm, hrow]

/-- The sorted table is a permutation of the pre-sort rows. -/
lemma table_perm_rows (env : StatsEnv) (st : ARIMADiagnostics) :
    (generate_summary_table env st).Perm (summaryRows env st) := by
  unfold generate_summary_table
  by_cases he : (summaryRows env st).isEmpty
  · rw [if_pos he]
  · rw [if_neg he]
    exact List.perm_insertionSort _ _

/-- C10: a summary row whose region's MetricsResult carries a MAPE of
exactly 0 is displayed with the MAPE field absent, and the row constructor
likewise renders a CI-coverage of exactly 0 as absent: field presence is
decided by the Python truthiness of the value (lines 432 and 437), so `0.0`
renders the same as a missing value. -/
theorem c10_zero_rendered_absent (env : StatsEnv) (st : ARIMADiagnostics)
    (district : String) (m : MetricsResult)
    (hm : compute_metrics st district 6 = some m) (hz : m.mape = some 0) :
    (∀ row ∈ generate_summary_table env st, row.District = district →
      row.MAPE = none) ∧
    (∀ d dg mr, mr.ci_coverage_95 = some 0 →
      (buildRow d dg mr).CI_Coverage = none) := by
  constructor
  · intro row hrow hd
    rw [(table_perm_rows env st).mem_iff, mem_summaryRows] at hrow
    obtain ⟨d2, hd2, dg2, m2, hdg2, hm2, hrow2⟩ := hrow
    have hdd : d2 = district := by
      rw [hrow2] at hd
      exact hd
    subst hdd
    rw [hm] at hm2
    rw [Option.some.injEq] at hm2
    subst hm2
    rw [hrow2]
    have hfield : (buildRow d2 dg2 m).MAPE =
        (match m.mape with
          | some v => if v ≠ 0 then some (roundPy v 1) else none
          | none => none) := rfl
    rw [hfield, hz]
    simp
  · intro d dg mr hci
    have hfield : (buildRow d dg mr).CI_Coverage =
        (match mr.ci_coverage_95 with
          | some v => if v ≠ 0 then some (roundPy v 1) else none
          | none => none) := rfl
    rw [hfield, hci]
    simp

/-- Witness for C10: region `"Z"` of `stC10` has MAPE exactly 0. -/
theorem c10_zero_rendered_absent_witness :
    (∀ row ∈ generate_summary_table envWitness stC10, row.District = "Z" →
      row.MAPE = none) ∧
    (∀ d dg mr, mr.ci_coverage_95 = some 0 →
      (buildRow d dg mr).CI_Coverage = none) :=
  c10_zero_rendered_absent envWitness stC10 "Z" rZero rfl (by
    have h1 : rZero.mape = some (meanQ [|((2 : ℚ) - 2) / 2|] * 100) := rfl
    rw [h1]
    norm_num [meanQ])

/-- Districts outside a traversal list contribute no row counted for them. -/
lemma countP_filterMap_rowFor_zero (env : StatsEnv) (st : ARIMADiagnostics)
    (district : String) :
    ∀ L : List String, district ∉ L →
      ((L.filterMap (rowFor env st)).countP
        (fun row => decide (row.District = district))) = 0 := by
  intro L
  induction L with
  | nil => intro _; rfl
  | cons d rest ih =>
    intro h
    simp only [List.mem_cons, not_or] at h
    rcases hF : rowFor env st d with _ | row
    · rw [List.filterMap_cons_none hF]
      exact ih h.2
    · rw [List.filterMap_cons_some hF, List.countP_cons]
      have hrowd : row.District = d := rowFor_district hF
      have hpred : decide (row.District = district) = false := by
        rw [hrowd]
        simp only [decide_eq_false_iff_not]
        exact fun he => h.1 he.symm
      rw [hpred, ih h.2]
      simp

/-- Exactly one row is counted for a district of a duplicate-free traversal
list when its row exists, none otherwise. -/
lemma countP_filterMap_rowFor (env : StatsEnv) (st : ARIMADiagnostics)
    (district : String) :
    ∀ L : List String, L.Nodup →
      ((L.filterMap (rowFor env st)).countP
        (fun row => decide (row.District = district))) =
      if district ∈ L ∧ (rowFor env st district).isSome then 1 else 0 := by
  intro L
  induction L with
  | nil => intro _; simp
  | cons d rest ih =>
    intro hnd
    rw [List.nodup_cons] at hnd
    by_cases hd : district = d
    · subst hd
      rcases hF : rowFor env st district with _ | row
      · rw [List.filterMap_cons_none hF,
          countP_filterMap_rowFor_zero env st district rest hnd.1]
        simp
      · rw [List.filterMap_cons_some hF, List.countP_cons,
          countP_filterMap_rowFor_zero env st district rest hnd.1]
        have hrowd : row.District = district := rowFor_district hF
        simp [hrowd, hF]
    · rcases hF : rowFor env st d with _ | row
      · rw [List.filterMap_cons_none hF, ih hnd.2]
        simp [List.mem_cons, hd]
      · rw [List.filterMap_cons_some hF, List.countP_cons, ih hnd.2]
        have hrowd : row.District = d := rowFor_district hF
        have hpred : decide (row.District = district) = false := by
          rw [hrowd]
          simp only [decide_eq_false_iff_not]
          exact fun he => hd he.symm
        rw [hpred]
        simp [List.mem_cons, hd]

/-- The number of summary rows equals the number of districts passing both
computations. -/
lemma length_filterMap_rowFor (env : StatsEnv) (st : ARIMADiagnostics) :
    ∀ L : List String,
      (L.filterMap (rowFor env st)).length =
      (L.filter (fun d => (compute_diagnostics env st d).isSome &&
        (compute_metrics st d 6).isSome)).length := by
  intro L
  induction L with
  | nil => rfl
  | cons d rest ih =>
    rw [List.filter_cons]
    rcases hF : rowFor env st d with _ | row
    · rw [List.filterMap_cons_none hF]
      have hb : ((compute_diagnostics env st d).isSome &&
          (compute_metrics st d 6).isSome) = false := by
        rw [← rowFor_isSome, hF]
        rfl
      rw [hb]
      simpa using ih
    · rw [List.filterMap_cons_some hF]
      have hb : ((compute_diagnostics env st d).isSome &&
          (compute_metrics st d 6).isSome) = true := by
        rw [← rowFor_isSome, hF]
        rfl
      rw [hb]
      simpa using ih

/-- A succeeding diagnostics call implies the district is a registry key. -/
lemma compute_diagnostics_isSome_mem {env : StatsEnv} {st : ARIMADiagnostics}
    {district : String}
    (h : (compute_diagnostics env st district).isSome = true) :
    district ∈ get_districts st := by
  by_contra hmem
  rw [compute_diagnostics_not_mem env st district hmem] at h
  exact absurd h (by simp)

/-- C4: the summary table has exactly one row per region for which both
computeDiagnostics and computeMetrics succeed; a region failing either is
excluded without raising, and an empty registry yields an empty table (as
does one where every region fails, since the length equals the count of
doubly-succeeding regions). -/
theorem c4_summary_inclusion_policy (env : StatsEnv) (st : ARIMADiagnostics)
    (hnd : (get_districts st).Nodup) :
    (∀ district, (generate_summary_table env st).countP
        (fun row => decide (row.District = district)) =
      if (compute_diagnostics env st district).isSome ∧
          (compute_metrics st district 6).isSome then 1 else 0) ∧
    (generate_summary_table env st).length =
      ((get_districts st).filter (fun district =>
        (compute_diagnostics env st district).isSome &&
        (compute_metrics st district 6).isSome)).length ∧
    (st.models = [] → generate_summary_table env st = []) := by
  refine ⟨?_, ?_, ?_⟩
  · intro district
    rw [(table_perm_rows env st).countP_eq]
    unfold summaryRows
    rw [countP_filterMap_rowFor env st district _ hnd]
    have hiff : (district ∈ get_districts st ∧
        (rowFor env st district).isSome = true) ↔
        ((compute_diagnostics env st district).isSome = true ∧
          (compute_metrics st district 6).isSome = true) := by
      rw [rowFor_isSome, Bool.and_eq_true]
      constructor
      · exact fun hx => hx.2
      · exact fun hx => ⟨compute_diagnostics_isSome_mem hx.1, hx⟩
    exact if_congr hiff rfl rfl
  · rw [(table_perm_rows env st).length_eq]
    unfold summaryRows
    exact length_filterMap_rowFor env st _
  · intro h
    unfold generate_summary_table summaryRows get_districts
    rw [h]
    rfl

/-- Witness for C4: `stC4`, where district `"A"` passes both computations
and district `"B"` fails the metrics computation. -/
theorem c4_summary_inclusion_policy_witness :
    (∀ district, (generate_summary_table envWitness stC4).countP
        (fun row => decide (row.District = district)) =
      if (compute_diagnostics envWitness stC4 district).isSome ∧
          (compute_metrics stC4 district 6).isSome then 1 else 0) ∧
    (generate_summary_table envWitness stC4).length =
      ((get_districts stC4).filter (fun district =>
        (compute_diagnostics envWitness stC4 district).isSome &&
        (compute_metrics stC4 district 6).isSome)).length ∧
    (stC4.models = [] → generate_summary_table envWitness stC4 = []) :=
  c4_summary_inclusion_policy envWitness stC4 (by decide)

/-- When every index the loop will touch is in bounds, the export loop
produces one row per step. -/
lemma forecastLoopRows_eq (district : String) (pr : List ℚ)
    (ci : List (ℚ × ℚ)) :
    ∀ fuel i, (∀ j, j < fuel → i + j < pr.length ∧ i + j < ci.length) →
      forecastLoopRows district pr ci fuel i =
        (List.range' i fuel).map (forecastRowAt district pr ci) := by
  intro fuel
  induction fuel with
  | zero => intro i _; rfl
  | succ fuel ih =>
    intro i h
    have h0 := h 0 (Nat.succ_pos _)
    rw [Nat.add_zero] at h0
    unfold forecastLoopRows
    rw [List.getElem?_eq_getElem h0.1, List.getElem?_eq_getElem h0.2]
    simp only
    rw [List.range'_succ, List.map_cons]
    congr 1
    refine ih (i + 1) ?_
    intro j hj
    have hh := h (j + 1) (by omega)
    constructor
    · have := hh.1
      omega
    · have := hh.2
      omega

/-- Every row the loop produces carries the loop's district. -/
lemma forecastLoopRows_mem_district (district : String) (pr : List ℚ)
    (ci : List (ℚ × ℚ)) :
    ∀ fuel i row, row ∈ forecastLoopRows district pr ci fuel i →
      row.district = district := by
  intro fuel
  induction fuel with
  | zero =>
    intro i row h
    exact absurd h (List.not_mem_nil _)
  | succ fuel ih =>
    intro i row h
    unfold forecastLoopRows at h
    rcases hp : pr[i]? with _ | p <;> rw [hp] at h
    · exact absurd h (List.not_mem_nil _)
    · rcases hc : ci[i]? with _ | c <;> rw [hc] at h
      · exact absurd h (List.not_mem_nil _)
      · rw [List.mem_cons] at h
        rcases h with h | h
        · rw [h]
          rfl
        · exact ih (i + 1) row h

/-- Every row a district contributes carries that district's name. -/
lemma regionForecastRows_mem_district (st : ARIMADiagnostics) (h : ℕ)
    (district : String) (row : ForecastCsvRow)
    (hrow : row ∈ regionForecastRows st h district) :
    row.district = district := by
  unfold regionForecastRows at hrow
  split at hrow
  · exact absurd hrow (List.not_mem_nil _)
  · split at hrow
    · exact absurd hrow (List.not_mem_nil _)
    · exact forecastLoopRows_mem_district district _ _ h 0 row hrow

/-- A district whose forecast raises contributes no rows at all. -/
lemma regionForecastRows_not_ok (st : ARIMADiagnostics) (h : ℕ)
    (district : String) (hnok : forecastOk st h district = false) :
    regionForecastRows st h district = [] := by
  unfold regionForecastRows
  unfold forecastOk at hnok
  split
  · rfl
  · rename_i model heq
    split
    · rfl
    · rename_i pc heq2
      rw [heq] at hnok
      dsimp only at hnok
      rw [heq2] at hnok
      exact absurd hnok (by simp)

/-- A district whose forecast succeeds with full-length outputs contributes
exactly the per-step rows. -/
lemma regionForecastRows_ok (st : ARIMADiagnostics) (h : ℕ)
    (district : String) (model : FittedModel) (pr : List ℚ)
    (ci : List (ℚ × ℚ)) (hal : alookup st.models district = some model)
    (hf : model.get_forecast h (1 / 20) = some (pr, ci))
    (hpr : pr.length = h) (hci : ci.length = h) :
    regionForecastRows st h district =
      (List.range' 0 h).map (forecastRowAt district pr ci) := by
  unfold regionForecastRows
  rw [hal]
  dsimp only
  rw [hf]
  refine forecastLoopRows_eq district pr ci h 0 ?_
  intro j hj
  constructor
  · omega
  · omega

/-- Success of a district's forecast generation, unfolded. -/
lemma forecastOk_eq_true_iff (st : ARIMADiagnostics) (h : ℕ)
    (district : String) :
    forecastOk st h district = true ↔
      ∃ model, alookup st.models district = some model ∧
        (model.get_forecast h (1 / 20)).isSome = true := by
  unfold forecastOk
  split
  · rename_i model heq
    constructor
    · intro hx
      exact ⟨model, heq, hx⟩
    · rintro ⟨m2, hm2, hx⟩
      rw [heq] at hm2
      rw [Option.some.injEq] at hm2
      subst hm2
      exact hx
  · rename_i heq
    constructor
    · intro hx
      exact absurd hx (by simp)
    · rintro ⟨m2, hm2, hx⟩
      rw [heq] at hm2
      exact absurd hm2 (by simp)

/-- Every exported row belongs to a district whose forecast succeeded. -/
lemma export_mem_ok (st : ARIMADiagnostics) (h : ℕ) (row : ForecastCsvRow)
    (hmem : row ∈ export_forecasts_csv st h) :
    forecastOk st h row.district = true := by
  unfold export_forecasts_csv at hmem
  rw [List.mem_flatMap] at hmem
  obtain ⟨d, hd, hrow⟩ := hmem
  rw [regionForecastRows_mem_district st h d row hrow]
  by_contra hnok
  rw [Bool.not_eq_true] at hnok
  rw [regionForecastRows_not_ok st h d hnok] at hrow
  exact absurd hrow (List.not_mem_nil _)

/-- Row count of the export: horizon times succeeding districts. -/
lemma export_length (st : ARIMADiagnostics) (h : ℕ)
    (hlen : ∀ district model, alookup st.models district = some model →
      ∀ pr ci, model.get_forecast h (1 / 20) = some (pr, ci) →
        pr.length = h ∧ ci.length = h) :
    ∀ L : List String,
      (L.flatMap (regionForecastRows st h)).length =
        h * (L.countP (forecastOk st h)) := by
  intro L
  induction L with
  | nil => simp
  | cons d rest ih =>
    rw [List.flatMap_cons, List.length_append, ih, List.countP_cons]
    by_cases hok : forecastOk st h d = true
    · have hreg : (regionForecastRows st h d).length = h := by
        obtain ⟨model, hal, hsome⟩ := (forecastOk_eq_true_iff st h d).mp hok
        rw [Option.isSome_iff_exists] at hsome
        obtain ⟨pc, hf⟩ := hsome
        obtain ⟨hpr, hci⟩ := hlen d model hal pc.1 pc.2 hf
        rw [regionForecastRows_ok st h d model pc.1 pc.2 hal hf hpr hci]
        rw [List.length_map, List.length_range']
      rw [hreg, hok, if_pos rfl, Nat.mul_succ]
      exact Nat.add_comm _ _
    · rw [Bool.not_eq_true] at hok
      rw [regionForecastRows_not_ok st h d hok, hok]
      simp

/-- A district outside the traversal leaves nothing in the filtered rows. -/
lemma filter_flatMap_nil (st : ARIMADiagnostics) (h : ℕ) (district : String) :
    ∀ L : List String, district ∉ L →
      ((L.flatMap (regionForecastRows st h)).filter
        (fun row => decide (row.district = district))) = [] := by
  intro L
  induction L with
  | nil => intro _; rfl
  | cons d rest ih =>
    intro hmem
    simp only [List.mem_cons, not_or] at hmem
    rw [List.flatMap_cons, List.filter_append, ih hmem.2, List.append_nil,
      List.filter_eq_nil_iff]
    intro row hrow
    rw [regionForecastRows_mem_district st h d row hrow]
    simp only [decide_eq_true_eq]
    exact fun he => hmem.1 he.symm

/-- With duplicate-free keys, filtering the export by one present district
recovers exactly that district's contribution. -/
lemma filter_flatMap_eq (st : ARIMADiagnostics) (h : ℕ) (district : String) :
    ∀ L : List String, L.Nodup → district ∈ L →
      ((L.flatMap (regionForecastRows st h)).filter
        (fun row => decide (row.district = district))) =
        regionForecastRows st h district := by
  intro L
  induction L with
  | nil =>
    intro _ hmem
    exact absurd hmem (List.not_mem_nil _)
  | cons d rest ih =>
    intro hnd hmem
    rw [List.nodup_cons] at hnd
    rw [List.flatMap_cons, List.filter_append]
    rcases List.mem_cons.mp hmem with rfl | he
    · rw [filter_flatMap_nil st h district rest hnd.1, List.append_nil,
        List.filter_eq_self]
      intro row hrow
      rw [regionForecastRows_mem_district st h district row hrow]
      simp
    · have hne : ¬(d = district) := fun hdd => hnd.1 (hdd ▸ he)
      have hnil : (regionForecastRows st h d).filter
          (fun row => decide (row.district = district)) = [] := by
        rw [List.filter_eq_nil_iff]
        intro row hrow
        rw [regionForecastRows_mem_district st h d row hrow]
        simp only [decide_eq_true_eq]
        exact hne
      rw [hnil, List.nil_append]
      exact ih hnd.2 he

/-- C8: under the interface guarantee that a succeeding forecast returns
exactly `h` predictions and `h` interval rows, the exported table has
exactly `h` rows per succeeding district (so `regions_succeeded × h` in
total), every exported row belongs to a succeeding district (a raising
district is omitted entirely and aborts nothing), and each succeeding
district's step column is the 1-based sequence `1, ..., h`. -/
theorem c8_forecast_export_shape (st : ARIMADiagnostics) (h : ℕ)
    (hnd : (get_districts st).Nodup)
    (hlen : ∀ district model, alookup st.models district = some model →
      ∀ pr ci, model.get_forecast h (1 / 20) = some (pr, ci) →
        pr.length = h ∧ ci.length = h) :
    (export_forecasts_csv st h).length =
      h * ((get_districts st).countP (forecastOk st h)) ∧
    (∀ row ∈ export_forecasts_csv st h, forecastOk st h row.district = true) ∧
    (∀ district ∈ get_districts st, forecastOk st h district = true →
      ((export_forecasts_csv st h).filter
        (fun row => decide (row.district = district))).map ForecastCsvRow.period =
      (List.range h).map (fun i => i + 1)) := by
  refine ⟨export_length st h hlen _, fun row hrow => export_mem_ok st h row hrow, ?_⟩
  intro district hmem hok
  unfold export_forecasts_csv
  rw [filter_flatMap_eq st h district _ hnd hmem]
  obtain ⟨model, hal, hsome⟩ := (forecastOk_eq_true_iff st h district).mp hok
  rw [Option.isSome_iff_exists] at hsome
  obtain ⟨pc, hf⟩ := hsome
  obtain ⟨hpr, hci⟩ := hlen district model hal pc.1 pc.2 hf
  rw [regionForecastRows_ok st h district model pc.1 pc.2 hal hf hpr hci]
  rw [List.map_map, List.range_eq_range']
  refine List.map_congr_left ?_
  intro i _
  rfl

/-- Witness for C8: `stC8` at horizon 1, where district `"F"` succeeds and
district `"G"` raises. -/
theorem c8_forecast_export_shape_witness :
    (export_forecasts_csv stC8 1).length =
      1 * ((get_districts stC8).countP (forecastOk stC8 1)) ∧
    (∀ row ∈ export_forecasts_csv stC8 1, forecastOk stC8 1 row.district = true) ∧
    (∀ district ∈ get_districts stC8, forecastOk stC8 1 district = true →
      ((export_forecasts_csv stC8 1).filter
        (fun row => decide (row.district = district))).map ForecastCsvRow.period =
      (List.range 1).map (fun i => i + 1)) :=
  c8_forecast_export_shape stC8 1 (by decide) (by
    intro district model hd pr ci hf
    have h1 : alookup stC8.models district =
        (if district = "F" then some mForecast
          else if district = "G" then some mC2 else none) := rfl
    rw [h1] at hd
    by_cases hF : district = "F"
    · rw [if_pos hF] at hd
      rw [Option.some.injEq] at hd
      subst hd
      have hf2 : (some ([(5 : ℚ)], [((4 : ℚ), (6 : ℚ))]) :
          Option (List ℚ × List (ℚ × ℚ))) = some (pr, ci) := hf
      rw [Option.some.injEq, Prod.mk.injEq] at hf2
      rw [← hf2.1, ← hf2.2]
      exact ⟨rfl, rfl⟩
    · rw [if_neg hF] at hd
      by_cases hG : district = "G"
      · rw [if_pos hG] at hd
        rw [Option.some.injEq] at hd
        subst hd
        exact Option.noConfusion hf
      · rw [if_neg hG] at hd
        exact Option.noConfusion hd)
